import Mathlib

/-!
Verification of the URL-resolution pipeline of `imgbot.py`.

The Python source is shallowly embedded: strings are Lean `String`s and all
string predicates are computed over the underlying character lists, Python
dicts holding selector rules become association lists (`List (String × String)`),
the HTTP session becomes an explicit fetch oracle `FetchFn`, the HTML document
of a fetched page becomes a list of `Element`s, and Python exceptions become an
explicit `PyErr` value threaded through `Except`.
-/

set_option autoImplicit false

namespace ImgBot

/-- Models Python `str.lower()` (character-wise lowering). -/
def lowerStr (s : String) : String :=
  String.mk (s.data.map Char.toLower)

/-- Models Python `str.endswith(p)`. -/
def strEndsWith (s p : String) : Bool :=
  p.data.isSuffixOf s.data

/-- Models Python `str.endswith(tuple)`: true if the string ends with any
element of the list. -/
def endsWithAny (s : String) (l : List String) : Bool :=
  l.any (fun p => strEndsWith s p)

/-- Models Python `str.startswith(p)`. -/
def strStartsWith (s p : String) : Bool :=
  p.data.isPrefixOf s.data

/-- Is `p` a contiguous sublist of the second argument? -/
def listInfix (p : List Char) : List Char → Bool
  | [] => p.isEmpty
  | c :: t => p.isPrefixOf (c :: t) || listInfix p t

/-- Models Python `p in s` (substring containment). -/
def containsSubstr (s p : String) : Bool :=
  listInfix p.data s.data

/-- `IMAGE_FORMATS` from imgbot.py: extensions recognized as direct images. -/
def IMAGE_FORMATS : List String :=
  [".png", ".gif", ".gifv", ".jpg", ".jpeg"]

/-- A selector rule: the Python dict `{"name": ..., <attr>: ..., "link": ...}`
as an association list. -/
abbrev Rule : Type := List (String × String)

/-- Lookup in a Python dict modelled as an association list (`d.get(k)` /
`d[k]` when present). -/
def dictGet (d : List (String × String)) (k : String) : Option String :=
  (d.find? (fun e => e.1 == k)).map (fun e => e.2)

/-- Key removal, the state of a dict after `d.pop(k)`. -/
def dictErase (d : List (String × String)) (k : String) : List (String × String) :=
  d.filter (fun e => e.1 != k)

/-- Lookup of a rule in the selector table (keys are domains). -/
def tableGet (t : List (String × Rule)) (k : String) : Option Rule :=
  (t.find? (fun e => e.1 == k)).map (fun e => e.2)

/-- `IMAGE_SELECTORS` from imgbot.py: the built-in selector table. -/
def IMAGE_SELECTORS : List (String × Rule) :=
  [("default", [("name", "meta"), ("property", "og:image"), ("link", "content")]),
   ("imgur.com", [("name", "link"), ("rel", "image_src"), ("link", "href")]),
   ("tinypic.com", [("name", "a"), ("class", "thickbox"), ("link", "href")]),
   ("gfycat.com", [("name", "meta"), ("property", "og:url"), ("link", "content")])]

/-- Models the startup merge `IMAGE_SELECTORS = {**IMAGE_SELECTORS, **selectors}`:
lookups prefer the external configuration, falling back to the built-ins. -/
def mergeSelectors (builtin cfg : List (String × Rule)) : List (String × Rule) :=
  cfg ++ builtin

/-- `IMAGE_SELECTORS.get(domain, IMAGE_SELECTORS["default"])` from line 58:
the domain-specific rule when present, else the `"default"` rule (`none` models
the `KeyError` Python would raise were `"default"` itself missing). -/
def ruleFor (t : List (String × Rule)) (domain : String) : Option Rule :=
  (tableGet t domain).orElse (fun _ => tableGet t "default")

/-- Models `urllib.parse.urlparse(url).netloc` for URLs of the shapes this
program sees: the host part after an explicit `http://` or `https://` scheme,
and the empty string when the URL has no such scheme (as `urlparse` returns
for scheme-less strings like `imgur.com/a/x`). -/
def urlparse_netloc (url : String) : String :=
  if strStartsWith url "http://" then
    String.mk ((url.data.drop 7).takeWhile (fun c => c != '/'))
  else if strStartsWith url "https://" then
    String.mk ((url.data.drop 8).takeWhile (fun c => c != '/'))
  else ""

/-- The scheme normalization at the top of `get_request` (lines 42-43). -/
def normalize_url (url : String) : String :=
  if strStartsWith url "http://" || strStartsWith url "https://" then url
  else "http://" ++ url

/-- An HTML element of a fetched document: tag name and attributes. -/
structure Element where
  name : String
  attrs : List (String × String)
deriving DecidableEq

/-- A successful HTTP response: the parsed document of its text, and whether
its raw content is a well-formed zip archive (consumed by `extract_album`). -/
structure Page where
  doc : List Element
  zipOk : Bool

/-- The HTTP session as an oracle: `none` models a network error or a
non-success status (`req.ok` false), `some` a successful response. -/
abbrev FetchFn : Type := String → Option Page

/-- The Python exceptions that can cross function boundaries in imgbot.py. -/
inductive PyErr where
  | connectionError
  | attributeError
  | keyError
  | typeError
  | badZipFile
deriving DecidableEq

/-- `get_request` (lines 39-47): normalizes the scheme and raises
`ConnectionError` on a bad response. -/
def get_request (fetch : FetchFn) (url : String) : Except PyErr Page :=
  match fetch (normalize_url url) with
  | none => .error .connectionError
  | some page => .ok page

/-- Does element `e` satisfy one keyword criterion of `soup.find`? The `name`
keyword matches the tag name, any other keyword matches an attribute value. -/
def matchesCriterion (e : Element) (kv : String × String) : Bool :=
  if kv.1 == "name" then e.name == kv.2
  else dictGet e.attrs kv.1 == some kv.2

/-- `soup.find(**selectors)` (line 61): the first element of the document
matching every criterion, `none` when there is no match. -/
def findEl (doc : List Element) (criteria : List (String × String)) : Option Element :=
  doc.find? (fun e => criteria.all (fun kv => matchesCriterion e kv))

/-- `get_direct_image_url` (lines 50-66). The result mirrors the Python
return value: `img.get(link)` yields `none` (Python `None`) when the matched
element lacks the link attribute. Raised exceptions: `ConnectionError` from
`get_request`, `KeyError` from `selectors.pop('link')` when the rule has no
`"link"` key (or the table has no `"default"` rule), `AttributeError` from
`img.get` when `soup.find` returned `None`. -/
def get_direct_image_url (fetch : FetchFn) (table : List (String × Rule))
    (url : String) : Except PyErr (Option String) :=
  match get_request fetch url with
  | .error e => .error e
  | .ok page =>
    match ruleFor table (urlparse_netloc url) with
    | none => .error .keyError
    | some selectors =>
      match dictGet selectors "link" with
      | none => .error .keyError
      | some link =>
        match findEl page.doc (dictErase selectors "link") with
        | none => .error .attributeError
        | some img => .ok (dictGet img.attrs link)

/-- The kind of a resolved resource, recording which branch of
`get_post_image_url` produced it (the spec's `Resolved Resource` kind). -/
inductive Kind where
  | singleImage
  | albumArchive
deriving DecidableEq

/-- `get_post_image_url` (lines 68-81), applied to the post's URL. The second
component lists the URLs actually requested over the network (empty for the
two request-free branches; `get_direct_image_url` requests the normalized
URL exactly once, whatever its outcome). -/
def get_post_image_url (fetch : FetchFn) (table : List (String × Rule))
    (url : String) : Except PyErr (Option String × Kind) × List String :=
  if endsWithAny (lowerStr url) IMAGE_FORMATS then
    (.ok (some url, .singleImage), [])
  else if containsSubstr url "/a/" then
    (.ok (some (url ++ "/zip"), .albumArchive), [])
  else
    match get_direct_image_url fetch table url with
    | .error e => (.error e, [normalize_url url])
    | .ok v => (.ok (v, .singleImage), [normalize_url url])

/-- `ignore_post` (lines 98-107): the skip decision together with the log
line its `print` emits (`none` when nothing is printed). -/
def ignore_post (url : String) (albums gifs : Bool) (title : String) :
    Bool × Option String :=
  if containsSubstr url "/zip" && !albums then
    (true, some ("[-] Ignoring album: " ++ title))
  else if (strEndsWith url ".gif" || strEndsWith url ".gifv") && !gifs then
    (true, some ("[-] Ignoring gif: " ++ title))
  else
    (false, none)

/-- A reddit post, the attributes `route_posts` reads. -/
structure Post where
  url : String
  title : String
  stickied : Bool
  is_self : Bool
  over_18 : Bool

/-- A filesystem effect of `route_posts`: an image written via `save_image`,
or an album extracted via `extract_album`, at the given resolved URL. -/
inductive Action where
  | savedImage (url : String)
  | extractedAlbum (url : String)
deriving DecidableEq

/-- The observable outcome of a `route_posts` run: console lines in order,
filesystem actions in order, and the exception that escaped the loop, when
one did (the posts after that point are never reached). -/
structure RouteResult where
  logs : List String
  actions : List Action
  err : Option PyErr
deriving DecidableEq

/-- Prepend a console line to a run's output. -/
def prependLog (l : String) (r : RouteResult) : RouteResult :=
  ⟨l :: r.logs, r.actions, r.err⟩

/-- Prepend a filesystem action to a run's output. -/
def prependAction (a : Action) (r : RouteResult) : RouteResult :=
  ⟨r.logs, a :: r.actions, r.err⟩

/-- The line-113 filter: `(post.stickied or post.is_self) or (post.over_18
and not nsfw)`. -/
def post_filtered (p : Post) (nsfw : Bool) : Bool :=
  (p.stickied || p.is_self) || (p.over_18 && !nsfw)

/-- `route_posts` (lines 110-137). Caught exceptions: `ConnectionError` and
`AttributeError` around `get_post_image_url`, `ConnectionError` around the
download `get_request`; any other exception escapes the loop and ends the
run. When `get_post_image_url` returns Python `None` (a matched element
without the link attribute), `'/zip' in url` inside `ignore_post` raises an
uncaught `TypeError`. A malformed archive raises an uncaught `BadZipFile`
inside `extract_album`, before the success line is printed. -/
def route_posts (fetch : FetchFn) (table : List (String × Rule)) :
    List Post → Bool → Bool → Bool → RouteResult
  | [], _, _, _ => ⟨[], [], none⟩
  | p :: ps, albums, gifs, nsfw =>
    if post_filtered p nsfw then
      route_posts fetch table ps albums gifs nsfw
    else
      match (get_post_image_url fetch table p.url).1 with
      | .error .connectionError =>
        prependLog ("[-] Encountered bad url: " ++ p.url)
          (route_posts fetch table ps albums gifs nsfw)
      | .error .attributeError =>
        prependLog ("[-] Could not extract link from " ++ p.url)
          (route_posts fetch table ps albums gifs nsfw)
      | .error e => ⟨[], [], some e⟩
      | .ok (none, _) => ⟨[], [], some .typeError⟩
      | .ok (some url, _) =>
        match ignore_post url albums gifs p.title with
        | (true, lg) =>
          (match lg with
           | some l => prependLog l (route_posts fetch table ps albums gifs nsfw)
           | none => route_posts fetch table ps albums gifs nsfw)
        | (false, _) =>
          match fetch (normalize_url url) with
          | none =>
            prependLog ("[-] Encountered bad url: " ++ url)
              (route_posts fetch table ps albums gifs nsfw)
          | some page =>
            if containsSubstr url "/zip" then
              if page.zipOk then
                prependAction (.extractedAlbum url)
                  (prependLog ("[+] Downloaded " ++ p.title)
                    (route_posts fetch table ps albums gifs nsfw))
              else ⟨[], [], some .badZipFile⟩
            else
              prependAction (.savedImage url)
                (prependLog ("[+] Downloaded " ++ p.title)
                  (route_posts fetch table ps albums gifs nsfw))

/-!
A reference-and-heap model for the selector table, capturing the mutation
behaviour of lines 58-59: rules live in heap cells, the table maps each
domain to a cell, `selectors = ....copy()` allocates a fresh cell holding the
same rule, and `selectors.pop('link')` writes the shrunken rule back into
that fresh cell. The claim that the table is read-only is a statement about
the cells the table points to, which a plain value embedding could not
express.
-/

/-- The heap of rule objects; a reference is an index into `cells`. -/
structure Heap where
  cells : List Rule

/-- Dereference (out-of-range reads never arise; they default to `[]`). -/
def Heap.read (h : Heap) (r : Nat) : Rule :=
  h.cells.getD r []

/-- Allocate a fresh cell holding `v`, returning its reference. -/
def Heap.alloc (h : Heap) (v : Rule) : Nat × Heap :=
  (h.cells.length, ⟨h.cells ++ [v]⟩)

/-- Overwrite the cell at `r`. -/
def Heap.write (h : Heap) (r : Nat) (v : Rule) : Heap :=
  ⟨h.cells.set r v⟩

/-- Lines 58-59 on the heap model:
`selectors = IMAGE_SELECTORS.get(domain, ...).copy(); link = selectors.pop('link')`.
`r` is the cell of the rule the table lookup produced; the copy allocates a
fresh cell and the pop mutates only that fresh cell. Returns the heap, the
reference to the copy, and the popped link value. -/
def rule_copy_pop (h : Heap) (r : Nat) : Heap × Nat × Option String :=
  let v := h.read r
  let a := h.alloc v
  let link := dictGet v "link"
  (Heap.write a.2 a.1 (dictErase v "link"), a.1, link)

/-- A selector table in the heap model: domain names to cell references. -/
abbrev TableRef : Type := List (String × Nat)

/-- Table lookup in the heap model (`IMAGE_SELECTORS.get(domain, default)`). -/
def tableRefFor (t : TableRef) (domain : String) : Option Nat :=
  ((t.find? (fun e => e.1 == domain)).map (fun e => e.2)).orElse
    (fun _ => (t.find? (fun e => e.1 == "default")).map (fun e => e.2))

/-- One resolution's use of the selector table in the heap model: look the
domain's rule up and run the copy-and-pop of lines 58-59 on it. -/
def resolve_rule_step (t : TableRef) (h : Heap) (domain : String) : Heap :=
  match tableRefFor t domain with
  | none => h
  | some r => (rule_copy_pop h r).1

/-- Any number of resolutions, each consulting the table. -/
def resolve_rules (t : TableRef) (h : Heap) : List String → Heap
  | [] => h
  | d :: ds => resolve_rules t (resolve_rule_step t h d) ds

/-! ## Claims -/

/-- Claim C1: a URL whose lower-cased form ends in a known direct-image
extension is returned unchanged by `get_post_image_url`, as a single image,
with no network request issued. -/
theorem c1_direct_image_url_returned_unchanged (fetch : FetchFn)
    (table : List (String × Rule)) (url : String)
    (h : endsWithAny (lowerStr url) IMAGE_FORMATS = true) :
    get_post_image_url fetch table url = (.ok (some url, .singleImage), []) := by
  simp [get_post_image_url, h]

/-- Witness for C1 at the concrete URL `http://x.com/A.PNG`. -/
theorem c1_witness :
    endsWithAny (lowerStr "http://x.com/A.PNG") IMAGE_FORMATS = true ∧
    get_post_image_url (fun _ => none) IMAGE_SELECTORS "http://x.com/A.PNG"
      = (.ok (some "http://x.com/A.PNG", Kind.singleImage), []) :=
  ⟨by decide, c1_direct_image_url_returned_unchanged _ _ _ (by decide)⟩

/-- Counterexample to claim C2 as stated: `imgur.com/a/x.png` contains the
album marker `/a/`, yet `get_post_image_url` returns it unchanged as a single
image (line 71 tests the image extensions before line 73 tests `/a/`), not
`url ++ "/zip"` as an album archive. -/
theorem c2_counterexample :
    containsSubstr "imgur.com/a/x.png" "/a/" = true ∧
    get_post_image_url (fun _ => none) IMAGE_SELECTORS "imgur.com/a/x.png"
      = (.ok (some "imgur.com/a/x.png", Kind.singleImage), []) ∧
    ("imgur.com/a/x.png" : String) ≠ "imgur.com/a/x.png" ++ "/zip" :=
  ⟨by decide, rfl, by decide⟩

/-- Claim C2 amended: a URL containing `/a/` whose lower-cased form does not
end in a known image extension resolves to `url ++ "/zip"` as an album
archive, with no network request issued. -/
theorem c2_album_url_zip (fetch : FetchFn) (table : List (String × Rule))
    (url : String)
    (h1 : endsWithAny (lowerStr url) IMAGE_FORMATS = false)
    (h2 : containsSubstr url "/a/" = true) :
    get_post_image_url fetch table url
      = (.ok (some (url ++ "/zip"), .albumArchive), []) := by
  simp [get_post_image_url, h1, h2]

/-- Witness for the amended C2 at the concrete URL `imgur.com/a/x`. -/
theorem c2_witness :
    endsWithAny (lowerStr "imgur.com/a/x") IMAGE_FORMATS = false ∧
    containsSubstr "imgur.com/a/x" "/a/" = true ∧
    get_post_image_url (fun _ => none) IMAGE_SELECTORS "imgur.com/a/x"
      = (.ok (some ("imgur.com/a/x" ++ "/zip"), Kind.albumArchive), []) :=
  ⟨by decide, by decide, c2_album_url_zip _ _ _ (by decide) (by decide)⟩

/-- Counterexample to claim C3 as stated: on a fetched imgur page whose
`<link rel="image_src">` element matches the rule but carries no `href`
attribute, `get_direct_image_url` does not fail — `img.get(link)` returns
Python `None` (line 64), so the function returns `.ok none` instead of the
`AttributeError` (= ExtractionFailed) the claim requires for the
attribute-absent case. -/
theorem c3_counterexample :
    findEl [⟨"link", [("rel", "image_src")]⟩]
        (dictErase [("name", "link"), ("rel", "image_src"), ("link", "href")] "link")
      = some ⟨"link", [("rel", "image_src")]⟩ ∧
    dictGet [("rel", "image_src")] "href" = none ∧
    get_direct_image_url (fun _ => some ⟨[⟨"link", [("rel", "image_src")]⟩], true⟩)
        IMAGE_SELECTORS "http://imgur.com/abc" = .ok none ∧
    (Except.ok none : Except PyErr (Option String)) ≠ .error .attributeError :=
  ⟨by decide, by decide, rfl, by simp⟩

/-- Claim C3 amended: when the resolver fetches a page (the URL is neither a
direct image nor an album) and the selected rule carries a link attribute, it
fails with `AttributeError` (ExtractionFailed) exactly when no element of the
document matches the rule; when an element matches, it returns that element's
link-attribute value — which is `none` (Python `None`), not a failure, when
the attribute is absent, and the discovered URL as kind=single-image when it
is present. -/
theorem c3_extraction_characterization (fetch : FetchFn)
    (table : List (String × Rule)) (url : String) (page : Page)
    (rule : Rule) (link : String)
    (h1 : endsWithAny (lowerStr url) IMAGE_FORMATS = false)
    (h2 : containsSubstr url "/a/" = false)
    (h3 : fetch (normalize_url url) = some page)
    (h4 : ruleFor table (urlparse_netloc url) = some rule)
    (h5 : dictGet rule "link" = some link) :
    get_post_image_url fetch table url =
      match findEl page.doc (dictErase rule "link") with
      | none => (.error .attributeError, [normalize_url url])
      | some img => (.ok (dictGet img.attrs link, Kind.singleImage), [normalize_url url]) := by
  cases hfind : findEl page.doc (dictErase rule "link") with
  | none =>
    simp [get_post_image_url, h1, h2, get_direct_image_url, get_request, h3, h4, h5, hfind]
  | some img =>
    simp [get_post_image_url, h1, h2, get_direct_image_url, get_request, h3, h4, h5, hfind]

/-- Witness for the amended C3: a page on a domain without a specific rule,
whose `og:image` meta tag carries the image in its `content` attribute. -/
theorem c3_witness :
    endsWithAny (lowerStr "http://rare.com/page") IMAGE_FORMATS = false ∧
    containsSubstr "http://rare.com/page" "/a/" = false ∧
    (fun (_ : String) =>
        some (⟨[⟨"meta", [("property", "og:image"), ("content", "http://img.com/x.png")]⟩], true⟩ : Page))
        (normalize_url "http://rare.com/page")
      = some ⟨[⟨"meta", [("property", "og:image"), ("content", "http://img.com/x.png")]⟩], true⟩ ∧
    ruleFor IMAGE_SELECTORS (urlparse_netloc "http://rare.com/page")
      = some [("name", "meta"), ("property", "og:image"), ("link", "content")] ∧
    dictGet [("name", "meta"), ("property", "og:image"), ("link", "content")] "link"
      = some "content" ∧
    get_post_image_url
        (fun _ => some ⟨[⟨"meta", [("property", "og:image"), ("content", "http://img.com/x.png")]⟩], true⟩)
        IMAGE_SELECTORS "http://rare.com/page"
      = (.ok (some "http://img.com/x.png", Kind.singleImage), [normalize_url "http://rare.com/page"]) :=
  ⟨by decide, by decide, rfl, by decide, by decide,
    c3_extraction_characterization
      (fun _ => some ⟨[⟨"meta", [("property", "og:image"), ("content", "http://img.com/x.png")]⟩], true⟩)
      IMAGE_SELECTORS "http://rare.com/page"
      ⟨[⟨"meta", [("property", "og:image"), ("content", "http://img.com/x.png")]⟩], true⟩
      [("name", "meta"), ("property", "og:image"), ("link", "content")] "content"
      (by decide) (by decide) rfl (by decide) (by decide)⟩

/-- Counterexample to claim C4 as stated: with a well-formed archive the run
processes both posts, but when the album post's archive is malformed the
`BadZipFile` (MalformedArchive) raised inside `extract_album` is not caught
at the per-post boundary — the run ends with the exception, emits no `[-]`
line for it, and never reaches the second post. -/
theorem c4_counterexample :
    route_posts (fun _ => some ⟨[], true⟩) IMAGE_SELECTORS
        [⟨"http://imgur.com/a/x", "t1", false, false, false⟩,
         ⟨"http://y.com/b.png", "t2", false, false, false⟩] true true true
      = ⟨["[+] Downloaded t1", "[+] Downloaded t2"],
         [.extractedAlbum "http://imgur.com/a/x/zip", .savedImage "http://y.com/b.png"],
         none⟩ ∧
    route_posts (fun _ => some ⟨[], false⟩) IMAGE_SELECTORS
        [⟨"http://imgur.com/a/x", "t1", false, false, false⟩,
         ⟨"http://y.com/b.png", "t2", false, false, false⟩] true true true
      = ⟨[], [], some .badZipFile⟩ :=
  ⟨rfl, rfl⟩

/-- Claim C4 amended: a `ConnectionError` (UnreachableResource) or
`AttributeError` (ExtractionFailed) raised while resolving a post is caught
at the per-post boundary, logged with a `[-]` prefix, and the run continues
with the next post; any other exception escaping resolution — and a
`BadZipFile` (MalformedArchive) during extraction — is not caught and ends
the run. -/
theorem c4_resolution_errors_caught (fetch : FetchFn)
    (table : List (String × Rule)) (albums gifs nsfw : Bool)
    (p : Post) (ps : List Post) (e : PyErr)
    (hf : post_filtered p nsfw = false)
    (he : (get_post_image_url fetch table p.url).1 = .error e) :
    route_posts fetch table (p :: ps) albums gifs nsfw =
      match e with
      | .connectionError =>
        prependLog ("[-] Encountered bad url: " ++ p.url)
          (route_posts fetch table ps albums gifs nsfw)
      | .attributeError =>
        prependLog ("[-] Could not extract link from " ++ p.url)
          (route_posts fetch table ps albums gifs nsfw)
      | e2 => ⟨[], [], some e2⟩ := by
  cases e <;> simp [route_posts, hf, he]

/-- Witness for the amended C4: an unreachable page URL is logged with a
`[-]` prefix and the run continues. -/
theorem c4_witness :
    post_filtered ⟨"z.com/page", "t", false, false, false⟩ false = false ∧
    (get_post_image_url (fun _ => none) IMAGE_SELECTORS "z.com/page").1
      = .error .connectionError ∧
    route_posts (fun _ => none) IMAGE_SELECTORS
        [⟨"z.com/page", "t", false, false, false⟩] true true false
      = prependLog ("[-] Encountered bad url: " ++ "z.com/page")
          (route_posts (fun _ => none) IMAGE_SELECTORS [] true true false) :=
  ⟨by decide, rfl,
    c4_resolution_errors_caught (fun _ => none) IMAGE_SELECTORS true true false
      ⟨"z.com/page", "t", false, false, false⟩ [] .connectionError (by decide) rfl⟩

/-- Counterexample to claim C5 as stated: with a configured `imgur.com` rule
lacking the link attribute, resolving an imgur page raises `KeyError` at
`selectors.pop('link')`; `route_posts` catches only `ConnectionError` and
`AttributeError`, so the failure is not handled like the other resolution
failures — the run ends with the exception, logs nothing, and never reaches
the second post. -/
theorem c5_counterexample :
    get_direct_image_url (fun _ => some ⟨[], true⟩)
        (mergeSelectors IMAGE_SELECTORS [("imgur.com", [("name", "link"), ("rel", "image_src")])])
        "http://imgur.com/abc" = .error .keyError ∧
    route_posts (fun _ => some ⟨[], true⟩)
        (mergeSelectors IMAGE_SELECTORS [("imgur.com", [("name", "link"), ("rel", "image_src")])])
        [⟨"http://imgur.com/abc", "t1", false, false, false⟩,
         ⟨"http://y.com/b.png", "t2", false, false, false⟩] true true true
      = ⟨[], [], some .keyError⟩ :=
  ⟨rfl, rfl⟩

/-- Claim C5 amended: a rule without a link attribute fails at the time it is
used (never at table-construction time, which is total), raising `KeyError`
from `selectors.pop('link')`; that exception is not caught at the per-post
boundary, so it ends the run instead of being logged and skipped. -/
theorem c5_missing_link_keyerror (fetch : FetchFn)
    (table : List (String × Rule)) (albums gifs nsfw : Bool)
    (p : Post) (ps : List Post) (page : Page) (rule : Rule)
    (hf : post_filtered p nsfw = false)
    (h1 : endsWithAny (lowerStr p.url) IMAGE_FORMATS = false)
    (h2 : containsSubstr p.url "/a/" = false)
    (h3 : fetch (normalize_url p.url) = some page)
    (h4 : ruleFor table (urlparse_netloc p.url) = some rule)
    (h5 : dictGet rule "link" = none) :
    (get_post_image_url fetch table p.url).1 = .error .keyError ∧
    route_posts fetch table (p :: ps) albums gifs nsfw = ⟨[], [], some .keyError⟩ := by
  have hres : (get_post_image_url fetch table p.url).1 = .error .keyError := by
    simp [get_post_image_url, h1, h2, get_direct_image_url, get_request, h3, h4, h5]
  exact ⟨hres, by simp [route_posts, hf, hres]⟩

/-- Witness for the amended C5 at a concrete misconfigured table. -/
theorem c5_witness :
    post_filtered ⟨"http://imgur.com/abc", "t1", false, false, false⟩ true = false ∧
    endsWithAny (lowerStr "http://imgur.com/abc") IMAGE_FORMATS = false ∧
    containsSubstr "http://imgur.com/abc" "/a/" = false ∧
    (fun (_ : String) => some (⟨[], true⟩ : Page)) (normalize_url "http://imgur.com/abc")
      = some ⟨[], true⟩ ∧
    ruleFor (mergeSelectors IMAGE_SELECTORS [("imgur.com", [("name", "link"), ("rel", "image_src")])])
        (urlparse_netloc "http://imgur.com/abc")
      = some [("name", "link"), ("rel", "image_src")] ∧
    dictGet [("name", "link"), ("rel", "image_src")] "link" = none ∧
    ((get_post_image_url (fun _ => some ⟨[], true⟩)
        (mergeSelectors IMAGE_SELECTORS [("imgur.com", [("name", "link"), ("rel", "image_src")])])
        "http://imgur.com/abc").1 = .error .keyError ∧
      route_posts (fun _ => some ⟨[], true⟩)
          (mergeSelectors IMAGE_SELECTORS [("imgur.com", [("name", "link"), ("rel", "image_src")])])
          [⟨"http://imgur.com/abc", "t1", false, false, false⟩] true true true
        = ⟨[], [], some .keyError⟩) :=
  ⟨by decide, by decide, by decide, rfl, by decide, by decide,
    c5_missing_link_keyerror (fun _ => some ⟨[], true⟩)
      (mergeSelectors IMAGE_SELECTORS [("imgur.com", [("name", "link"), ("rel", "image_src")])])
      true true true ⟨"http://imgur.com/abc", "t1", false, false, false⟩ [] ⟨[], true⟩
      [("name", "link"), ("rel", "image_src")]
      (by decide) (by decide) (by decide) rfl (by decide) (by decide)⟩

/-- Counterexample to claim C6 as stated: the resolved URL
`http://e.com/zip/a.gifv` ends in `.gifv` and the gifs flag is true, so the
claim says the post is processed — but the `/zip` test on line 100 runs
first, and with the albums flag false the post is skipped. -/
theorem c6_counterexample :
    strEndsWith "http://e.com/zip/a.gifv" ".gifv" = true ∧
    (ignore_post "http://e.com/zip/a.gifv" false true "t").1 = true :=
  ⟨by decide, by decide⟩

/-- Claim C6 amended: `ignore_post` skips a post exactly when its resolved
URL contains `/zip` and the albums flag is false, or the URL ends in `.gif`
or `.gifv` and the gifs flag is false; the album test runs first, so when
both conditions apply the post is skipped as an album. -/
theorem c6_ignore_post_characterization (url : String) (albums gifs : Bool)
    (title : String) :
    (ignore_post url albums gifs title).1
      = (containsSubstr url "/zip" && !albums
          || (strEndsWith url ".gif" || strEndsWith url ".gifv") && !gifs) := by
  unfold ignore_post
  cases h1 : containsSubstr url "/zip" && !albums <;>
    cases h2 : (strEndsWith url ".gif" || strEndsWith url ".gifv") && !gifs <;>
      simp [h1, h2]

/-- Counterexample to claim C7 as stated: a stickied post is skipped by the
line-113 filter with a bare `continue` — the run emits no log line at all for
it, while the claim requires every skip to be logged with its reason and the
post title. -/
theorem c7_counterexample :
    route_posts (fun _ => none) IMAGE_SELECTORS
        [⟨"u", "t", true, false, false⟩] true true true = ⟨[], [], none⟩ :=
  rfl

/-- Claim C7 amended: rule-1 (stickied/self-post) and rule-2 (adult policy)
skips are silent — the run's output is exactly the output for the remaining
posts; only rule-3 (album/gif policy) skips produce a log line, which carries
the reason and the post title (the resolved URL is not logged). -/
theorem c7_skip_logging (fetch : FetchFn) (table : List (String × Rule))
    (p : Post) (ps : List Post) (albums gifs nsfw : Bool)
    (url title : String) :
    (post_filtered p nsfw = true →
      route_posts fetch table (p :: ps) albums gifs nsfw
        = route_posts fetch table ps albums gifs nsfw) ∧
    ((ignore_post url albums gifs title).1 = true →
      (ignore_post url albums gifs title).2 = some ("[-] Ignoring album: " ++ title) ∨
      (ignore_post url albums gifs title).2 = some ("[-] Ignoring gif: " ++ title)) := by
  constructor
  · intro h
    simp [route_posts, h]
  · intro h
    unfold ignore_post at h ⊢
    rcases h1 : containsSubstr url "/zip" && !albums with _ | _
    · rcases h2 : (strEndsWith url ".gif" || strEndsWith url ".gifv") && !gifs with _ | _
      · simp [h1, h2] at h
      · simp [h1, h2]
    · simp [h1]

/-- Witness for the amended C7: a stickied post leaves the run output
untouched, and an album skip logs the reason with the title. -/
theorem c7_witness :
    post_filtered ⟨"u", "t", true, false, false⟩ true = true ∧
    route_posts (fun _ => none) IMAGE_SELECTORS
        [⟨"u", "t", true, false, false⟩] true true true
      = route_posts (fun _ => none) IMAGE_SELECTORS [] true true true ∧
    (ignore_post "http://i.com/a/x/zip" false true "t2").1 = true ∧
    ((ignore_post "http://i.com/a/x/zip" false true "t2").2
        = some ("[-] Ignoring album: " ++ "t2") ∨
      (ignore_post "http://i.com/a/x/zip" false true "t2").2
        = some ("[-] Ignoring gif: " ++ "t2")) :=
  ⟨by decide,
    (c7_skip_logging (fun _ => none) IMAGE_SELECTORS ⟨"u", "t", true, false, false⟩ []
      true true true "http://i.com/a/x/zip" "t2").1 (by decide),
    by decide,
    (c7_skip_logging (fun _ => none) IMAGE_SELECTORS ⟨"u", "t", true, false, false⟩ []
      false true true "http://i.com/a/x/zip" "t2").2 (by decide)⟩

/-- Claim C8: the startup merge `{**IMAGE_SELECTORS, **selectors}` is
key-wise — a configuration without an `imgur.com` key leaves the built-in
`imgur.com` rule reachable through `ruleFor`, while every key the
configuration does define overrides exactly its own entry. -/
theorem c8_keywise_merge (cfg : List (String × Rule)) (k : String) (r : Rule)
    (h : tableGet cfg "imgur.com" = none)
    (hk : tableGet cfg k = some r) :
    ruleFor (mergeSelectors IMAGE_SELECTORS cfg) "imgur.com"
      = some [("name", "link"), ("rel", "image_src"), ("link", "href")] ∧
    tableGet (mergeSelectors IMAGE_SELECTORS cfg) k = some r := by
  have hfind : cfg.find? (fun e => e.1 == "imgur.com") = none := by
    simpa [tableGet, Option.map_eq_none'] using h
  constructor
  · simp [ruleFor, mergeSelectors, tableGet, List.find?_append, hfind, IMAGE_SELECTORS]
  · rcases Option.map_eq_some'.mp hk with ⟨e, he, her⟩
    simp [tableGet, mergeSelectors, List.find?_append, he, her]

/-- Witness for C8: a configuration defining only a `gfycat.com` rule. -/
theorem c8_witness :
    tableGet [("gfycat.com", [("name", "a"), ("link", "href")])] "imgur.com" = none ∧
    tableGet [("gfycat.com", [("name", "a"), ("link", "href")])] "gfycat.com"
      = some [("name", "a"), ("link", "href")] ∧
    (ruleFor (mergeSelectors IMAGE_SELECTORS [("gfycat.com", [("name", "a"), ("link", "href")])])
        "imgur.com"
      = some [("name", "link"), ("rel", "image_src"), ("link", "href")] ∧
    tableGet (mergeSelectors IMAGE_SELECTORS [("gfycat.com", [("name", "a"), ("link", "href")])])
        "gfycat.com"
      = some [("name", "a"), ("link", "href")]) :=
  ⟨by decide, by decide,
    c8_keywise_merge [("gfycat.com", [("name", "a"), ("link", "href")])] "gfycat.com"
      [("name", "a"), ("link", "href")] (by decide) (by decide)⟩

/-- The copy-and-pop of lines 58-59 leaves every pre-existing heap cell as it
was: the pop writes only to the freshly allocated copy. -/
theorem read_copy_pop_of_lt (h : Heap) (r r0 : Nat) (hr : r0 < h.cells.length) :
    ((rule_copy_pop h r).1).read r0 = h.read r0 := by
  have hne : h.cells.length ≠ r0 := Nat.ne_of_gt hr
  simp only [rule_copy_pop, Heap.alloc, Heap.write, Heap.read]
  rw [List.getD_eq_getElem?_getD, List.getD_eq_getElem?_getD,
    List.getElem?_set_ne hne, List.getElem?_append_left hr,
    List.getD_eq_getElem?_getD]

/-- One table consultation never shrinks the heap. -/
theorem resolve_rule_step_length (t : TableRef) (h : Heap) (d : String) :
    h.cells.length ≤ (resolve_rule_step t h d).cells.length := by
  unfold resolve_rule_step
  cases tableRefFor t d with
  | none => exact Nat.le_refl _
  | some r =>
    simp [rule_copy_pop, Heap.alloc, Heap.write]

/-- One table consultation leaves every pre-existing cell unchanged. -/
theorem resolve_rule_step_read (t : TableRef) (h : Heap) (d : String) (r0 : Nat)
    (hr : r0 < h.cells.length) :
    (resolve_rule_step t h d).read r0 = h.read r0 := by
  unfold resolve_rule_step
  cases tableRefFor t d with
  | none => rfl
  | some r => exact read_copy_pop_of_lt h r r0 hr

/-- Claim C9: the selector table is read-only during resolution — after any
number of resolutions, each looking its domain's rule up and running the
copy-and-pop of lines 58-59 on it, every rule cell the table can point to
(any cell present at startup) still holds its startup value; the pop mutates
only the per-resolution copy. -/
theorem c9_selector_table_read_only (t : TableRef) (hp : Heap)
    (domains : List String) (r0 : Nat) (hr : r0 < hp.cells.length) :
    (resolve_rules t hp domains).read r0 = hp.read r0 := by
  induction domains generalizing hp with
  | nil => rfl
  | cons d ds ih =>
    have h2 : r0 < (resolve_rule_step t hp d).cells.length :=
      Nat.lt_of_lt_of_le hr (resolve_rule_step_length t hp d)
    calc (resolve_rules t hp (d :: ds)).read r0
        = (resolve_rule_step t hp d).read r0 := ih (resolve_rule_step t hp d) h2
      _ = hp.read r0 := resolve_rule_step_read t hp d r0 hr

/-- Witness for C9: two resolutions against a one-cell table leave the cell
holding the default rule untouched. -/
theorem c9_witness :
    0 < (Heap.mk [[("name", "meta"), ("property", "og:image"), ("link", "content")]]).cells.length ∧
    (resolve_rules [("default", 0)]
        (Heap.mk [[("name", "meta"), ("property", "og:image"), ("link", "content")]])
        ["imgur.com", "x.com"]).read 0
      = (Heap.mk [[("name", "meta"), ("property", "og:image"), ("link", "content")]]).read 0 :=
  ⟨by decide,
    c9_selector_table_read_only [("default", 0)]
      (Heap.mk [[("name", "meta"), ("property", "og:image"), ("link", "content")]])
      ["imgur.com", "x.com"] 0 (by decide)⟩

/-- Claim C10: the resolver's extension test lowers the URL first (line 71)
while `ignore_post`'s gif test does not (line 103) — a URL ending in an
upper- or mixed-case gif extension is resolved as a direct image without any
request, passes the filter even with the gifs flag false, and is downloaded. -/
theorem c10_uppercase_gif_bypasses_filter (fetch : FetchFn)
    (table : List (String × Rule)) (albums nsfw : Bool)
    (p : Post) (ps : List Post) (page : Page)
    (h1 : endsWithAny (lowerStr p.url) IMAGE_FORMATS = true)
    (h2 : strEndsWith p.url ".gif" = false)
    (h3 : strEndsWith p.url ".gifv" = false)
    (h4 : containsSubstr p.url "/zip" = false)
    (hf : post_filtered p nsfw = false)
    (hfetch : fetch (normalize_url p.url) = some page) :
    get_post_image_url fetch table p.url = (.ok (some p.url, .singleImage), []) ∧
    (ignore_post p.url albums false p.title).1 = false ∧
    route_posts fetch table (p :: ps) albums false nsfw
      = prependAction (.savedImage p.url)
          (prependLog ("[+] Downloaded " ++ p.title)
            (route_posts fetch table ps albums false nsfw)) := by
  have hres : get_post_image_url fetch table p.url = (.ok (some p.url, .singleImage), []) := by
    simp [get_post_image_url, h1]
  have hig : ignore_post p.url albums false p.title = (false, none) := by
    simp [ignore_post, h2, h3, h4]
  refine ⟨hres, by simp [hig], ?_⟩
  simp [route_posts, hf, hres, hig, hfetch, h4]

/-- Witness for C10 at the concrete URL `http://x.com/A.GIF` with the gifs
flag false. -/
theorem c10_witness :
    endsWithAny (lowerStr "http://x.com/A.GIF") IMAGE_FORMATS = true ∧
    strEndsWith "http://x.com/A.GIF" ".gif" = false ∧
    strEndsWith "http://x.com/A.GIF" ".gifv" = false ∧
    containsSubstr "http://x.com/A.GIF" "/zip" = false ∧
    post_filtered ⟨"http://x.com/A.GIF", "t", false, false, false⟩ false = false ∧
    (fun (_ : String) => some (⟨[], true⟩ : Page)) (normalize_url "http://x.com/A.GIF")
      = some ⟨[], true⟩ ∧
    (get_post_image_url (fun _ => some ⟨[], true⟩) IMAGE_SELECTORS "http://x.com/A.GIF"
        = (.ok (some "http://x.com/A.GIF", Kind.singleImage), []) ∧
      (ignore_post "http://x.com/A.GIF" true false "t").1 = false ∧
      route_posts (fun _ => some ⟨[], true⟩) IMAGE_SELECTORS
          [⟨"http://x.com/A.GIF", "t", false, false, false⟩] true false false
        = prependAction (.savedImage "http://x.com/A.GIF")
            (prependLog ("[+] Downloaded " ++ "t")
              (route_posts (fun _ => some ⟨[], true⟩) IMAGE_SELECTORS [] true false false))) :=
  ⟨by decide, by decide, by decide, by decide, by decide, rfl,
    c10_uppercase_gif_bypasses_filter (fun _ => some ⟨[], true⟩) IMAGE_SELECTORS true false
      ⟨"http://x.com/A.GIF", "t", false, false, false⟩ [] ⟨[], true⟩
      (by decide) (by decide) (by decide) (by decide) (by decide) rfl⟩

end ImgBot
